import Mathlib

/-!
Verification of the Agent-Connector Python data-flow client
(`backend/scripts/dataflow_client.py`) against its natural-language
specification.  The Python code is shallowly embedded: dicts become
association lists over a JSON value type, the `requests` transport is
modelled by explicit outcome types (response obtained / exception with or
without an attached response), and generators become lists produced by
total functions.
-/

namespace DataFlow

/-- JSON values, the result type of `json.loads` and the shape of every
payload and response mapping in the client. Numbers are modelled as
integers (no claim involves fractional values). -/
inductive Json where
  | null : Json
  | bool (b : Bool) : Json
  | num (n : Int) : Json
  | str (s : String) : Json
  | arr (xs : List Json) : Json
  | obj (fields : List (String × Json)) : Json

/-- Python dict lookup `d.get(k)` on an association-list model of a dict
(keys are unique in any dict the client builds): the binding of `k`, if
any. -/
def dictGet (d : List (String × Json)) (k : String) : Option Json :=
  match d with
  | [] => none
  | p :: rest => if p.1 = k then some p.2 else dictGet rest k

/-- Python dict lookup with default, `d.get(k, v)`. -/
def dictGetD (d : List (String × Json)) (k : String) (v : Json) : Json :=
  (dictGet d k).getD v

/-- Python dict assignment `d[k] = v`: overwrite the binding of `k` if
present, otherwise append a new binding (insertion order is preserved, as
in a Python dict). -/
def dictSet (d : List (String × Json)) (k : String) (v : Json) :
    List (String × Json) :=
  match d with
  | [] => [(k, v)]
  | p :: rest => if p.1 = k then (k, v) :: rest else p :: dictSet rest k v

/-- Field access on a JSON object (`j[k]` when `j` is a mapping). -/
def jsonGet (j : Json) (k : String) : Option Json :=
  match j with
  | .obj fields => dictGet fields k
  | _ => none

/-- Python truthiness of a JSON-shaped value, as used by
`data.get('stream', False) or ...` in `chat_universal`. -/
def truthy : Json → Bool
  | .null => false
  | .bool b => b
  | .num n => n ≠ 0
  | .str s => s ≠ ""
  | .arr xs => !xs.isEmpty
  | .obj fields => !fields.isEmpty

/-! ### A model of `json.loads`

The client calls the Python standard-library `json.loads` on each stream
frame and relies on it raising `JSONDecodeError` for malformed input.
That library is external to the repository, so the stream decoder below is
parameterised over an arbitrary parse function; the concrete parser here
models `json.loads` on the JSON subset exercised by the development
(objects, arrays, strings with simple escapes, integers, booleans, null),
returning `none` where `json.loads` would raise. -/

/-- Skip leading JSON whitespace characters. -/
def skipWs : List Char → List Char
  | [] => []
  | c :: cs =>
    if c = ' ' ∨ c = '\t' ∨ c = '\n' ∨ c = '\r' then skipWs cs else c :: cs

/-- Decode a single JSON string escape character. -/
def escChar (c : Char) : Option Char :=
  if c = 'n' then some '\n'
  else if c = 't' then some '\t'
  else if c = 'r' then some '\r'
  else if c = 'b' then some (Char.ofNat 8)
  else if c = 'f' then some (Char.ofNat 12)
  else if c = '"' ∨ c = '\\' ∨ c = '/' then some c
  else none

/-- Parse the body of a JSON string up to the closing quote, returning the
decoded characters and the remaining input. -/
def parseStrAux : List Char → Option (List Char × List Char)
  | [] => none
  | '"' :: cs => some ([], cs)
  | '\\' :: c :: cs =>
    match escChar c with
    | some e => (parseStrAux cs).map (fun p => (e :: p.1, p.2))
    | none => none
  | '\\' :: [] => none
  | c :: cs => (parseStrAux cs).map (fun p => (c :: p.1, p.2))

/-- Numeric value of a decimal digit character. -/
def digitVal (c : Char) : Option Nat :=
  if '0' ≤ c ∧ c ≤ '9' then some (c.toNat - '0'.toNat) else none

/-- Consume further decimal digits, accumulating their value. -/
def parseDigitsAux (acc : Nat) : List Char → Nat × List Char
  | [] => (acc, [])
  | c :: cs =>
    match digitVal c with
    | some d => parseDigitsAux (acc * 10 + d) cs
    | none => (acc, c :: cs)

/-- Parse an unsigned integer literal; fails on an empty digit run and on
fractional or exponent forms (not modelled). -/
def parseIntPart : List Char → Option (Nat × List Char)
  | [] => none
  | c :: cs =>
    match digitVal c with
    | some d =>
      let p := parseDigitsAux d cs
      match p.2 with
      | [] => some (p.1, [])
      | e :: _ => if e = '.' ∨ e = 'e' ∨ e = 'E' then none else some (p.1, p.2)
    | none => none

mutual

/-- Parse one JSON value from the input (fuel-bounded recursion). -/
def parseVal : Nat → List Char → Option (Json × List Char)
  | 0, _ => none
  | _, [] => none
  | fuel + 1, s =>
    match s with
    | [] => none
    | 't' :: 'r' :: 'u' :: 'e' :: cs => some (Json.bool true, cs)
    | 'f' :: 'a' :: 'l' :: 's' :: 'e' :: cs => some (Json.bool false, cs)
    | 'n' :: 'u' :: 'l' :: 'l' :: cs => some (Json.null, cs)
    | '"' :: cs => (parseStrAux cs).map (fun p => (Json.str (String.mk p.1), p.2))
    | '[' :: cs =>
      match skipWs cs with
      | ']' :: ds => some (Json.arr [], ds)
      | ds => (parseElems fuel ds).map (fun p => (Json.arr p.1, p.2))
    | '-' :: cs => (parseIntPart cs).map (fun p => (Json.num (-(p.1 : Int)), p.2))
    | c :: cs =>
      if c = Char.ofNat 123 then
        match skipWs cs with
        | [] => none
        | d :: ds =>
          if d = Char.ofNat 125 then some (Json.obj [], ds)
          else (parseMembers fuel (d :: ds)).map (fun p => (Json.obj p.1, p.2))
      else
        (parseIntPart (c :: cs)).map (fun p => (Json.num (p.1 : Int), p.2))

/-- Parse the comma-separated members of a JSON object, including the
closing brace. -/
def parseMembers : Nat → List Char → Option (List (String × Json) × List Char)
  | 0, _ => none
  | fuel + 1, s =>
    match skipWs s with
    | '"' :: cs =>
      match parseStrAux cs with
      | some (keyChars, rest1) =>
        match skipWs rest1 with
        | ':' :: rest2 =>
          match parseVal fuel (skipWs rest2) with
          | some (v, rest3) =>
            match skipWs rest3 with
            | ',' :: rest4 =>
              (parseMembers fuel rest4).map
                (fun p => ((String.mk keyChars, v) :: p.1, p.2))
            | d :: rest4 =>
              if d = Char.ofNat 125 then some ([(String.mk keyChars, v)], rest4)
              else none
            | [] => none
          | none => none
        | _ => none
      | none => none
    | _ => none

/-- Parse the comma-separated elements of a JSON array, including the
closing bracket. -/
def parseElems : Nat → List Char → Option (List Json × List Char)
  | 0, _ => none
  | fuel + 1, s =>
    match parseVal fuel (skipWs s) with
    | some (v, rest) =>
      match skipWs rest with
      | ',' :: rest2 => (parseElems fuel rest2).map (fun p => (v :: p.1, p.2))
      | ']' :: rest2 => some ([v], rest2)
      | _ => none
    | none => none

end

/-- Model of `json.loads`: parse a complete JSON document, requiring the
whole input to be consumed; `none` models a raised `JSONDecodeError`. -/
def jsonLoads (s : String) : Option Json :=
  match parseVal (s.length + 1) (skipWs s.data) with
  | some (j, rest) => if skipWs rest = [] then some j else none
  | none => none

/-! ### Request model -/

/-- `ChatMessage` dataclass. -/
structure ChatMessage where
  role : String
  content : String

/-- `OpenAIRequest` dataclass.  The `temperature` float is carried as an
opaque JSON value (floats are outside the integer JSON model; no claim
observes it). -/
structure OpenAIRequest where
  messages : List ChatMessage
  model : String := "gpt-3.5-turbo"
  max_tokens : Option Int := none
  temperature : Json := Json.null
  stream : Bool := false

/-- `DifyRequest` dataclass, before `__post_init__` runs: the `inputs`
field defaults to `None`. -/
structure DifyRequest where
  query : String
  user : String
  conversation_id : String := ""
  inputs : Option (List (String × Json)) := none
  response_mode : String := "blocking"

/-- `DifyRequest.__post_init__`: replace an unset `inputs` by the empty
mapping. -/
def DifyRequest.postInit (r : DifyRequest) : DifyRequest :=
  match r.inputs with
  | none => { r with inputs := some [] }
  | some _ => r

/-- Constructing a `DifyRequest` in Python: the dataclass `__init__`
stores the arguments (with their declared defaults) and then
`__post_init__` runs. -/
def difyRequestNew (query user : String) (conversation_id : String := "")
    (inputs : Option (List (String × Json)) := none)
    (response_mode : String := "blocking") : DifyRequest :=
  DifyRequest.postInit
    { query := query, user := user, conversation_id := conversation_id,
      inputs := inputs, response_mode := response_mode }

/-- `dataclasses.asdict` on an `OpenAIRequest`. -/
def asdictOpenAI (r : OpenAIRequest) : List (String × Json) :=
  [("messages", Json.arr (r.messages.map
      (fun m => Json.obj [("role", Json.str m.role), ("content", Json.str m.content)]))),
   ("model", Json.str r.model),
   ("max_tokens", match r.max_tokens with | some n => Json.num n | none => Json.null),
   ("temperature", r.temperature),
   ("stream", Json.bool r.stream)]

/-- `dataclasses.asdict` on a `DifyRequest` (a fresh mapping: the request
object itself is not touched). -/
def asdictDify (r : DifyRequest) : List (String × Json) :=
  [("query", Json.str r.query),
   ("user", Json.str r.user),
   ("conversation_id", Json.str r.conversation_id),
   ("inputs", match r.inputs with | some m => Json.obj m | none => Json.null),
   ("response_mode", Json.str r.response_mode)]

/-! ### Transport outcomes and the error envelope -/

/-- Outcome of one blocking `session.post`: either `requests` raised
without an attached HTTP response (connection refused, DNS failure,
timeout — `e.response` is `None`), or a response with some status and raw
body was obtained. -/
inductive BlockingOutcome where
  | noResponse (msg : String)
  | response (status : Nat) (body : String)

/-- Outcome of one streaming `session.post`: either the request raised
before any line was delivered (`connectError`, carrying the status when
`raise_for_status` failed on an obtained response, else no status), or
the connection delivered some lines, possibly cut off by a transport
exception while iterating (`interrupt`). -/
inductive StreamOutcome where
  | connectError (msg : String) (status : Option Nat)
  | connected (lines : List String) (interrupt : Option (String × Option Nat))

/-- One element yielded by the streaming generator: a decoded event or the
error mapping. -/
inductive StreamItem where
  | event (j : Json)
  | errorItem (e : Json)

/-- The error mapping literal built in `_blocking_request` and
`_stream_request`.  The `status_code` key is always present: its value is
the response's status when the exception carries a response, and `None`
(JSON null) otherwise. -/
def errorEnvelope (etype msg : String) (status : Option Nat) : Json :=
  Json.obj [("error", Json.obj
    [("type", Json.str etype),
     ("message", Json.str msg),
     ("status_code", match status with | some n => Json.num n | none => Json.null)])]

/-- Message of the `HTTPError` raised by `raise_for_status` (`str(e)`);
no claim observes the text. -/
def httpErrorStr (status : Nat) : String := "HTTP error " ++ toString status

/-- Message of the `JSONDecodeError` raised by `response.json()` on a
malformed body; no claim observes the text. -/
def jsonDecodeErrorStr : String := "Expecting value"

/-- `DataFlowClient._blocking_request`: POST, `raise_for_status` (which
raises exactly for statuses in [400, 600)), then `response.json()`; any
`requests.exceptions.RequestException` is converted to the error mapping.
A failed body parse raises `requests.exceptions.JSONDecodeError`, which
carries no response, hence a null `status_code`. -/
def blocking_request (parse : String → Option Json) : BlockingOutcome → Json
  | .noResponse msg => errorEnvelope "request_failed" msg none
  | .response status body =>
    if 400 ≤ status ∧ status < 600 then
      errorEnvelope "request_failed" (httpErrorStr status) (some status)
    else
      match parse body with
      | some j => j
      | none => errorEnvelope "request_failed" jsonDecodeErrorStr none

/-! ### Stream decoding -/

/-- Python `s.startswith(pre)`. -/
def pyStartsWith (s pre : String) : Bool := pre.data.isPrefixOf s.data

/-- Python `s[n:]`: drop the first `n` characters. -/
def pyDrop (s : String) (n : Nat) : String := String.mk (s.data.drop n)

/-- The whitespace characters stripped by Python `str.strip()`. -/
def isSpaceChar (c : Char) : Bool := c = ' ' ∨ c = '\t' ∨ c = '\n' ∨ c = '\r'

/-- Python `s.strip()`: remove leading and trailing whitespace. -/
def pyStrip (s : String) : String :=
  String.mk (((s.data.dropWhile isSpaceChar).reverse.dropWhile isSpaceChar).reverse)

/-- The frame-decoding loop of `_stream_request`, over the lines the
connection delivered: skip falsy (empty) lines, consider only lines with
the `data: ` prefix, stop at the `[DONE]` sentinel, silently discard
frames the parse rejects.  Returns the emitted events together with
whether the sentinel broke the loop. -/
def decodeStream (parse : String → Option Json) : List String → List Json × Bool
  | [] => ([], false)
  | line :: rest =>
    if line = "" then decodeStream parse rest
    else if pyStartsWith line "data: " then
      let data_str := pyDrop line 6
      if pyStrip data_str = "[DONE]" then ([], true)
      else
        match parse data_str with
        | some j =>
          let p := decodeStream parse rest
          (j :: p.1, p.2)
        | none => decodeStream parse rest
    else decodeStream parse rest

/-- `DataFlowClient._stream_request` as the list of items the generator
yields.  A failure to establish the stream yields exactly the one error
mapping.  On an open connection the decoded events are yielded in order;
if the loop ended by the sentinel the generator returns (a pending
transport exception is never pulled), otherwise a transport exception
raised while iterating is caught and yielded as one final error
mapping. -/
def stream_request (parse : String → Option Json) : StreamOutcome → List StreamItem
  | .connectError msg status => [.errorItem (errorEnvelope "stream_failed" msg status)]
  | .connected lines interrupt =>
    let p := decodeStream parse lines
    (p.1.map .event) ++
      (if p.2 then []
       else
         match interrupt with
         | some (msg, status) => [.errorItem (errorEnvelope "stream_failed" msg status)]
         | none => [])

/-! ### Protocol adapters -/

/-- Value of `data.get('response_mode') == 'streaming'` in Python (absent
key compares unequal, as does any non-string value). -/
def isStreamingValue : Option Json → Bool
  | some (Json.str s) => s == "streaming"
  | _ => false

/-- What a chat operation sends: the URL, the payload mapping, and which
transport path it picked. -/
structure DispatchCall where
  url : String
  payload : List (String × Json)
  streaming : Bool

/-- `DataFlowClient.chat_openai`. -/
def chat_openai (base_url agent_id : String) (request : OpenAIRequest) :
    DispatchCall :=
  { url := base_url ++ "/api/v1/openai/chat/completions?agent_id=" ++ agent_id,
    payload := asdictOpenAI request,
    streaming := request.stream }

/-- `DataFlowClient.chat_dify`. -/
def chat_dify (base_url agent_id : String) (request : DifyRequest) :
    DispatchCall :=
  { url := base_url ++ "/api/v1/dify/chat-messages?agent_id=" ++ agent_id,
    payload := asdictDify request,
    streaming := request.response_mode == "streaming" }

/-- Result of `chat_dify_workflow`, with the caller-visible state of the
request object after the call (`asdict` serialises a copy). -/
structure WorkflowCall where
  url : String
  payload : List (String × Json)
  streaming : Bool
  callerRequest : DifyRequest

/-- `DataFlowClient.chat_dify_workflow`: endpoint without query string,
`agent_id` added to the serialised payload copy. -/
def chat_dify_workflow (base_url agent_id : String) (request : DifyRequest) :
    WorkflowCall :=
  let url := base_url ++ "/api/v1/dify/workflows/run"
  let data := asdictDify request
  let data := dictSet data "agent_id" (Json.str agent_id)
  { url := url, payload := data,
    streaming := request.response_mode == "streaming",
    callerRequest := request }

/-- Result of `chat_universal`, with the caller-visible state of the
passed mapping after the call: `data['agent_id'] = agent_id` mutates the
caller's dict in place, so the payload sent IS the caller's mapping. -/
structure UniversalCall where
  url : String
  payload : List (String × Json)
  streaming : Bool
  callerData : List (String × Json)

/-- `DataFlowClient.chat_universal`. -/
def chat_universal (base_url agent_id : String)
    (data : List (String × Json)) : UniversalCall :=
  let url := base_url ++ "/api/v1/chat"
  let data := dictSet data "agent_id" (Json.str agent_id)
  let is_streaming :=
    truthy (dictGetD data "stream" (Json.bool false)) ||
      isStreamingValue (dictGet data "response_mode")
  { url := url, payload := data, streaming := is_streaming,
    callerData := data }

/-! ### Specification-side decoder (refinement reference for C1) -/

/-- The sentinel test of the spec's state machine: a line bearing the
`data: ` prefix whose stripped remainder is the completion sentinel. -/
def isDoneLine (line : String) : Bool :=
  pyStartsWith line "data: " && decide (pyStrip (pyDrop line 6) = "[DONE]")

/-- Decoder written from the spec's words: take the lines before the
first sentinel line, keep those bearing the `data: ` prefix, and emit the
successful parses in arrival order (blank and unparsable lines drop out,
nothing at or after the sentinel is emitted). -/
def specDecode (parse : String → Option Json) (lines : List String) :
    List Json :=
  (lines.takeWhile (fun l => !isDoneLine l)).filterMap
    (fun l => if pyStartsWith l "data: " then parse (pyDrop l 6) else none)

/-- The decode loop agrees with the spec-side decoder on every line
sequence and every parse function. -/
theorem decodeStream_eq_specDecode (parse : String → Option Json)
    (lines : List String) :
    (decodeStream parse lines).1 = specDecode parse lines := by
  induction lines with
  | nil => rfl
  | cons line rest ih =>
    by_cases hempty : line = ""
    · subst hempty
      have h1 : pyStartsWith "" "data: " = false := by decide
      simp only [decodeStream, specDecode, List.takeWhile_cons, isDoneLine, h1,
        Bool.false_and, Bool.not_false, if_true, List.filterMap_cons, if_false,
        Bool.false_eq_true, ite_false, ite_true]
      exact ih
    · cases hsw : pyStartsWith line "data: " with
      | false =>
        have hd : isDoneLine line = false := by simp [isDoneLine, hsw]
        simp only [decodeStream, hempty, hsw, specDecode, List.takeWhile_cons,
          hd, Bool.not_false, List.filterMap_cons, ite_false, ite_true,
          if_neg, Bool.false_eq_true]
        exact ih
      | true =>
        by_cases hdone : pyStrip (pyDrop line 6) = "[DONE]"
        · have hd : isDoneLine line = true := by simp [isDoneLine, hsw, hdone]
          simp [decodeStream, hempty, hsw, hdone, specDecode,
            List.takeWhile_cons, hd]
        · have hd : isDoneLine line = false := by simp [isDoneLine, hsw, hdone]
          cases hp : parse (pyDrop line 6) with
          | some j =>
            simp only [decodeStream, hempty, hsw, hdone, hp, specDecode,
              List.takeWhile_cons, hd, Bool.not_false, List.filterMap_cons,
              ite_true, ite_false, Bool.false_eq_true]
            simp only [specDecode] at ih
            simp [ih]
          | none =>
            simp only [decodeStream, hempty, hsw, hdone, hp, specDecode,
              List.takeWhile_cons, hd, Bool.not_false, List.filterMap_cons,
              ite_true, ite_false, Bool.false_eq_true]
            simp only [specDecode] at ih
            simp [ih]

/-- The error object's `type` field of a result mapping. -/
def errorType (j : Json) : Option Json :=
  (jsonGet j "error").bind (fun e => jsonGet e "type")

/-- The error object's `status_code` field of a result mapping. -/
def errorStatusCode (j : Json) : Option Json :=
  (jsonGet j "error").bind (fun e => jsonGet e "status_code")

/-- The concrete line sequence of the spec's stream-decode example. -/
def exampleLines : List String :=
  ["data: \x7b\"a\":1\x7d", "", "data: not-json", "data: \x7b\"b\":2\x7d",
   "data: [DONE]", "data: \x7b\"c\":3\x7d"]

/-- C1: for every parse function and every input line sequence the stream
decoder emits exactly the successful parses of the `data: `-prefixed
lines before the first sentinel line, in arrival order — blank lines and
unparsable frames are skipped without terminating, and nothing at or
after `[DONE]` is emitted; on the spec's concrete six-line example the
stream yields exactly the two events `{"a": 1}` then `{"b": 2}`. -/
theorem C1_stream_decode_robustness :
    (∀ (parse : String → Option Json) (lines : List String),
        (decodeStream parse lines).1 = specDecode parse lines) ∧
    stream_request jsonLoads (.connected exampleLines none) =
      [.event (Json.obj [("a", Json.num 1)]),
       .event (Json.obj [("b", Json.num 2)])] :=
  ⟨decodeStream_eq_specDecode, by rfl⟩

/-- C3: a streaming request that fails before the stream is established
yields exactly one item — the error mapping with type `stream_failed` —
and then terminates; the generator catches the exception and yields it as
data instead of raising. -/
theorem C3_stream_connect_failure (parse : String → Option Json)
    (msg : String) (status : Option Nat) :
    stream_request parse (.connectError msg status) =
      [.errorItem (errorEnvelope "stream_failed" msg status)] ∧
    (stream_request parse (.connectError msg status)).length = 1 ∧
    errorType (errorEnvelope "stream_failed" msg status) =
      some (Json.str "stream_failed") :=
  ⟨rfl, rfl, rfl⟩

/-- Nothing follows an error item in a yielded item sequence. -/
def errorIsTerminal : List StreamItem → Prop
  | [] => True
  | .event _ :: rest => errorIsTerminal rest
  | .errorItem _ :: rest => rest = []

/-- Prepending decoded events preserves terminality of errors. -/
theorem errorIsTerminal_events_append (xs : List Json)
    (tail : List StreamItem) (h : errorIsTerminal tail) :
    errorIsTerminal (xs.map StreamItem.event ++ tail) := by
  induction xs with
  | nil => simpa
  | cons x xs ih => simpa [errorIsTerminal] using ih

/-- Once a sentinel line is reached, the decode loop's result does not
depend on anything after it: the events and the termination flag are
those of the prefix up to the sentinel. -/
theorem decodeStream_stops_at_done (parse : String → Option Json)
    (d : String) (hd : isDoneLine d = true) :
    ∀ pre post : List String, ∃ evs,
      decodeStream parse (pre ++ d :: post) = (evs, true) ∧
      decodeStream parse (pre ++ [d]) = (evs, true) := by
  have hparts := hd
  simp only [isDoneLine, Bool.and_eq_true, decide_eq_true_eq] at hparts
  obtain ⟨hsw, hstrip⟩ := hparts
  have hne : d ≠ "" := by
    intro h
    rw [h] at hsw
    exact absurd hsw (by decide)
  intro pre
  induction pre with
  | nil =>
    intro post
    refine ⟨[], ?_, ?_⟩ <;> simp [decodeStream, hne, hsw, hstrip]
  | cons l pre ih =>
    intro post
    obtain ⟨evs, h1, h2⟩ := ih post
    by_cases hle : l = ""
    · subst hle
      exact ⟨evs, by simpa [decodeStream] using h1,
        by simpa [decodeStream] using h2⟩
    · cases hlsw : pyStartsWith l "data: " with
      | false =>
        exact ⟨evs, by simp [decodeStream, hle, hlsw, h1],
          by simp [decodeStream, hle, hlsw, h2]⟩
      | true =>
        by_cases hldone : pyStrip (pyDrop l 6) = "[DONE]"
        · exact ⟨[], by simp [decodeStream, hle, hlsw, hldone],
            by simp [decodeStream, hle, hlsw, hldone]⟩
        · cases hlp : parse (pyDrop l 6) with
          | some j =>
            exact ⟨j :: evs, by simp [decodeStream, hle, hlsw, hldone, hlp, h1],
              by simp [decodeStream, hle, hlsw, hldone, hlp, h2]⟩
          | none =>
            exact ⟨evs, by simp [decodeStream, hle, hlsw, hldone, hlp, h1],
              by simp [decodeStream, hle, hlsw, hldone, hlp, h2]⟩

/-- C4: in every streamed sequence the client produces, no event is ever
yielded after an error item (the sequence ends right after an error), and
once a `[DONE]` sentinel line is observed the sequence is exactly what
the stream up to the sentinel produces — later lines and even a later
transport interruption contribute nothing. -/
theorem C4_no_event_after_error_or_done (parse : String → Option Json)
    (o : StreamOutcome) :
    errorIsTerminal (stream_request parse o) ∧
    ∀ (pre post : List String) (d : String)
      (interrupt : Option (String × Option Nat)),
      isDoneLine d = true →
      stream_request parse (.connected (pre ++ d :: post) interrupt) =
        stream_request parse (.connected (pre ++ [d]) none) := by
  constructor
  · cases o with
    | connectError msg status => simp [stream_request, errorIsTerminal]
    | connected lines interrupt =>
      simp only [stream_request]
      apply errorIsTerminal_events_append
      cases hdn : (decodeStream parse lines).2 with
      | true => simp [errorIsTerminal]
      | false =>
        cases interrupt with
        | none => simp [errorIsTerminal]
        | some p =>
          obtain ⟨msg, status⟩ := p
          simp [errorIsTerminal]
  · intro pre post d interrupt hd
    obtain ⟨evs, h1, h2⟩ := decodeStream_stops_at_done parse d hd pre post
    simp [stream_request, h1, h2]

/-- Witness for C4 at a concrete stream: the example stream cut off by a
transport error still ends right after the error item, and a stream with
lines after the sentinel plus a pending interruption yields the same
items as the stream truncated at the sentinel. -/
theorem C4_witness :
    errorIsTerminal (stream_request jsonLoads
      (.connected exampleLines (some ("connection reset", none)))) ∧
    stream_request jsonLoads
        (.connected (["data: \x7b\"a\":1\x7d"] ++ "data: [DONE]" ::
          ["data: \x7b\"c\":3\x7d"]) (some ("connection reset", none))) =
      stream_request jsonLoads
        (.connected (["data: \x7b\"a\":1\x7d"] ++ ["data: [DONE]"]) none) :=
  ⟨(C4_no_event_after_error_or_done jsonLoads _).1,
   (C4_no_event_after_error_or_done jsonLoads (.connected [] none)).2
     _ _ _ _ (by decide)⟩

/-! ### Dictionary lemmas -/

/-- After `d[k] = v`, looking up `k` gives `v`. -/
theorem dictGet_dictSet_self (d : List (String × Json)) (k : String)
    (v : Json) : dictGet (dictSet d k v) k = some v := by
  induction d with
  | nil => simp [dictSet, dictGet]
  | cons p d ih =>
    by_cases hp : p.1 = k <;> simp [dictSet, dictGet, hp, ih]

/-- After `d[k] = v`, looking up any other key is unchanged. -/
theorem dictGet_dictSet_ne (d : List (String × Json)) (k k2 : String)
    (v : Json) (h : k2 ≠ k) :
    dictGet (dictSet d k v) k2 = dictGet d k2 := by
  have hkk : ¬ k = k2 := fun he => h he.symm
  induction d with
  | nil => simp [dictSet, dictGet, hkk]
  | cons p d ih =>
    by_cases hp : p.1 = k
    · have hp2 : ¬ p.1 = k2 := fun he => h (he.symm.trans hp)
      simp [dictSet, dictGet, hp, hp2, hkk]
    · by_cases hp2 : p.1 = k2
      · simp [dictSet, dictGet, hp, hp2, hkk, h]
      · simp [dictSet, dictGet, hp, hp2, ih]

/-! ### Error-envelope accessors -/

/-- The `type` field of every error mapping is the tag it was built
with. -/
theorem errorType_envelope (etype msg : String) (status : Option Nat) :
    errorType (errorEnvelope etype msg status) = some (Json.str etype) := rfl

/-- The `status_code` field of an error mapping built from an exception
with a response is that response's status. -/
theorem errorStatusCode_envelope_some (etype msg : String) (status : Nat) :
    errorStatusCode (errorEnvelope etype msg (some status)) =
      some (Json.num status) := rfl

/-- The `status_code` field of an error mapping built from an exception
without a response is present, bound to JSON null. -/
theorem errorStatusCode_envelope_none (etype msg : String) :
    errorStatusCode (errorEnvelope etype msg none) = some Json.null := rfl

/-! ### C2: status_code on a response-less failure -/

/-- C2 counterexample: on a blocking transport failure that carries no
HTTP response, the error mapping the code returns DOES contain the
`status_code` key — bound to JSON null — so the field is not absent as
the claim states. -/
theorem C2_counterexample :
    errorStatusCode (blocking_request jsonLoads
      (.noResponse "Connection refused")) = some Json.null ∧
    errorStatusCode (blocking_request jsonLoads
      (.noResponse "Connection refused")) ≠ none := by
  refine ⟨rfl, ?_⟩
  intro h
  simp [blocking_request, errorStatusCode, errorEnvelope, jsonGet, dictGet] at h

/-- C2 as amended: for every blocking request whose transport failure
carries no HTTP response, the result is the `request_failed` error
mapping in which `status_code` is present with value null. -/
theorem C2_no_response_status_code_null (parse : String → Option Json)
    (msg : String) :
    blocking_request parse (.noResponse msg) =
      errorEnvelope "request_failed" msg none ∧
    errorType (blocking_request parse (.noResponse msg)) =
      some (Json.str "request_failed") ∧
    errorStatusCode (blocking_request parse (.noResponse msg)) =
      some Json.null :=
  ⟨rfl, rfl, rfl⟩

/-! ### C5 and C6: blocking-path error normalisation -/

/-- The blocking failure modes the code converts into an error mapping:
an exception without a response (connection refused, timeout, DNS), a
status `raise_for_status` rejects (4xx/5xx), or a body `response.json()`
cannot parse. -/
def blockingFailure (parse : String → Option Json) : BlockingOutcome → Prop
  | .noResponse _ => True
  | .response status body =>
    (400 ≤ status ∧ status < 600) ∨ parse body = none

/-- C5 counterexample: a response with the non-2xx status 304 and a valid
JSON body is returned as the parsed body — no error mapping is produced,
because `raise_for_status` raises only for statuses in [400, 600). -/
theorem C5_counterexample :
    blocking_request jsonLoads (.response 304 "\x7b\"ok\":true\x7d") =
      Json.obj [("ok", Json.bool true)] ∧
    jsonGet (blocking_request jsonLoads
      (.response 304 "\x7b\"ok\":true\x7d")) "error" = none ∧
    ¬ (200 ≤ 304 ∧ 304 ≤ 299) :=
  ⟨rfl, rfl, by decide⟩

/-- C5 as amended: every blocking failure the transport can signal — no
response obtained, a 4xx/5xx status, or a malformed body — is returned
as the `request_failed` error mapping (the conversion is total: no
exception escapes). -/
theorem C5_blocking_failures_normalized (parse : String → Option Json)
    (o : BlockingOutcome) (h : blockingFailure parse o) :
    (∃ msg status, blocking_request parse o =
      errorEnvelope "request_failed" msg status) ∧
    errorType (blocking_request parse o) = some (Json.str "request_failed") := by
  cases o with
  | noResponse msg =>
    exact ⟨⟨msg, none, rfl⟩, rfl⟩
  | response status body =>
    by_cases hc : 400 ≤ status ∧ status < 600
    · refine ⟨⟨httpErrorStr status, some status, ?_⟩, ?_⟩ <;>
        simp [blocking_request, hc, errorType_envelope]
    · have hp : parse body = none := by
        cases h with
        | inl h1 => exact absurd h1 hc
        | inr h2 => exact h2
      refine ⟨⟨jsonDecodeErrorStr, none, ?_⟩, ?_⟩ <;>
        simp [blocking_request, hc, hp, errorType_envelope]

/-- Witness for C5: a concrete connection-refused failure is normalised
to a `request_failed` mapping. -/
theorem C5_witness :
    blockingFailure jsonLoads (.noResponse "Connection refused by host") ∧
    errorType (blocking_request jsonLoads
        (.noResponse "Connection refused by host")) =
      some (Json.str "request_failed") :=
  ⟨trivial, (C5_blocking_failures_normalized jsonLoads
    (.noResponse "Connection refused by host") trivial).2⟩

/-- C6 counterexample: a response with the non-2xx status 304 and the
body `{}` is returned as the parsed empty object, with no `error` key —
so no error mapping carrying status 304 is produced, refuting the claim
for non-2xx statuses outside [400, 600). -/
theorem C6_counterexample :
    blocking_request jsonLoads (.response 304 "\x7b\x7d") = Json.obj [] ∧
    jsonGet (blocking_request jsonLoads (.response 304 "\x7b\x7d"))
      "error" = none ∧
    ¬ (200 ≤ 304 ∧ 304 ≤ 299) :=
  ⟨rfl, rfl, by decide⟩

/-- C6 as amended: for every blocking request whose response carries a
4xx or 5xx status — the statuses `raise_for_status` rejects — the result
is the `request_failed` error mapping whose `status_code` equals that
status. -/
theorem C6_error_status_code (parse : String → Option Json) (status : Nat)
    (body : String) (h4 : 400 ≤ status) (h6 : status < 600) :
    blocking_request parse (.response status body) =
      errorEnvelope "request_failed" (httpErrorStr status) (some status) ∧
    errorStatusCode (blocking_request parse (.response status body)) =
      some (Json.num status) ∧
    errorType (blocking_request parse (.response status body)) =
      some (Json.str "request_failed") := by
  have hc : 400 ≤ status ∧ status < 600 := ⟨h4, h6⟩
  refine ⟨?_, ?_, ?_⟩ <;>
    simp [blocking_request, hc, errorStatusCode_envelope_some,
      errorType_envelope]

/-- Witness for C6: a concrete 404 response is normalised to a
`request_failed` mapping carrying status 404. -/
theorem C6_witness :
    (400 ≤ 404 ∧ 404 < 600) ∧
    errorStatusCode (blocking_request jsonLoads (.response 404 "missing")) =
      some (Json.num 404) :=
  ⟨by decide,
   (C6_error_status_code jsonLoads 404 "missing" (by decide) (by decide)).2.1⟩

/-! ### C7: universal adapter streaming condition -/

/-- The `response_mode` comparison holds exactly for the string value
"streaming". -/
theorem isStreamingValue_eq_true (o : Option Json) :
    isStreamingValue o = true ↔ o = some (Json.str "streaming") := by
  cases o with
  | none => simp [isStreamingValue]
  | some v => cases v <;> simp [isStreamingValue]

/-- The defaulted `stream` lookup is truthy exactly when a truthy value
is bound. -/
theorem truthy_getD_eq_true (o : Option Json) :
    truthy (o.getD (Json.bool false)) = true ↔
      ∃ v, o = some v ∧ truthy v = true := by
  cases o with
  | none => simp [truthy]
  | some v => simp

/-- C7 counterexample: the payload `{"stream": 1}` — `1` is truthy but
not equal to `true`, and `response_mode` is absent — still takes the
streaming path, refuting the claimed "if and only if". -/
theorem C7_counterexample :
    (chat_universal "http://localhost:8082" "A"
      [("stream", Json.num 1)]).streaming = true ∧
    dictGet [("stream", Json.num 1)] "stream" ≠ some (Json.bool true) ∧
    dictGet [("stream", Json.num 1)] "response_mode" = none := by
  refine ⟨rfl, ?_, rfl⟩
  intro h
  simp [dictGet] at h

/-- C7 as amended: the universal adapter takes the streaming path if and
only if the payload binds `stream` to a truthy value (Python truthiness,
not only the literal `true`) or binds `response_mode` to "streaming";
in particular `response_mode: "streaming"` with no `stream` key triggers
streaming, each condition sufficient on its own. -/
theorem C7_universal_streaming_condition (base agentId : String)
    (data : List (String × Json)) :
    ((chat_universal base agentId data).streaming = true ↔
      ((∃ v, dictGet data "stream" = some v ∧ truthy v = true) ∨
        dictGet data "response_mode" = some (Json.str "streaming"))) ∧
    (dictGet data "stream" = none →
      dictGet data "response_mode" = some (Json.str "streaming") →
      (chat_universal base agentId data).streaming = true) := by
  have h1 : dictGet (dictSet data "agent_id" (Json.str agentId)) "stream" =
      dictGet data "stream" :=
    dictGet_dictSet_ne data "agent_id" "stream" (Json.str agentId) (by decide)
  have h2 : dictGet (dictSet data "agent_id" (Json.str agentId))
      "response_mode" = dictGet data "response_mode" :=
    dictGet_dictSet_ne data "agent_id" "response_mode" (Json.str agentId)
      (by decide)
  have hmain : (chat_universal base agentId data).streaming = true ↔
      ((∃ v, dictGet data "stream" = some v ∧ truthy v = true) ∨
        dictGet data "response_mode" = some (Json.str "streaming")) := by
    simp only [chat_universal, dictGetD, h1, h2, Bool.or_eq_true]
    rw [truthy_getD_eq_true, isStreamingValue_eq_true]
  refine ⟨hmain, ?_⟩
  intro hs hr
  exact hmain.mpr (Or.inr hr)

/-- Witness for C7: a concrete payload with `response_mode: "streaming"`
and no `stream` key takes the streaming path. -/
theorem C7_witness :
    dictGet [("response_mode", Json.str "streaming")] "stream" = none ∧
    (chat_universal "http://localhost:8082" "agent-1"
      [("response_mode", Json.str "streaming")]).streaming = true :=
  ⟨rfl, (C7_universal_streaming_condition "http://localhost:8082" "agent-1"
    [("response_mode", Json.str "streaming")]).2 rfl rfl⟩

/-! ### C8, C9, C10: adapters and the request model -/

/-- C8: the Dify-workflow adapter targets
`base_url + "/api/v1/dify/workflows/run"` — a path with no query
separator — and the serialised payload binds `agent_id` to the given
id. -/
theorem C8_workflow_endpoint_and_payload (base agentId : String)
    (request : DifyRequest) :
    (chat_dify_workflow base agentId request).url =
      base ++ "/api/v1/dify/workflows/run" ∧
    ("/api/v1/dify/workflows/run".data.contains '?') = false ∧
    dictGet (chat_dify_workflow base agentId request).payload "agent_id" =
      some (Json.str agentId) :=
  ⟨rfl, by decide, dictGet_dictSet_self (asdictDify request) "agent_id"
    (Json.str agentId)⟩

/-- C9: a `DifyRequest` constructed without an `inputs` argument holds
the empty mapping — and serialises it as the empty JSON object under the
`inputs` key, present and not null. -/
theorem C9_inputs_default_empty (query userId cid rm : String) :
    (difyRequestNew query userId cid none rm).inputs = some [] ∧
    dictGet (asdictDify (difyRequestNew query userId cid none rm))
      "inputs" = some (Json.obj []) ∧
    dictGet (asdictDify (difyRequestNew query userId cid none rm))
      "inputs" ≠ some Json.null := by
  refine ⟨rfl, rfl, ?_⟩
  intro h
  simp [difyRequestNew, DifyRequest.postInit, asdictDify, dictGet] at h

/-- C10: `chat_universal` updates the caller's own mapping — after the
call it binds `agent_id` to the given id, overwriting any previous
binding, leaves every other key unchanged, and is the very mapping sent
as the payload; `chat_dify_workflow` serialises a copy and hands the
caller's request object back untouched. -/
theorem C10_universal_mutates_caller_mapping (base agentId : String)
    (data : List (String × Json)) (request : DifyRequest) :
    (chat_universal base agentId data).callerData =
      dictSet data "agent_id" (Json.str agentId) ∧
    dictGet (chat_universal base agentId data).callerData "agent_id" =
      some (Json.str agentId) ∧
    (∀ k, k ≠ "agent_id" →
      dictGet (chat_universal base agentId data).callerData k =
        dictGet data k) ∧
    (chat_universal base agentId data).callerData =
      (chat_universal base agentId data).payload ∧
    (chat_dify_workflow base agentId request).callerRequest = request := by
  refine ⟨rfl, dictGet_dictSet_self data "agent_id" (Json.str agentId),
    ?_, rfl, rfl⟩
  intro k hk
  exact dictGet_dictSet_ne data "agent_id" k (Json.str agentId) hk

/-- Witness for C10: a caller mapping that already binds `agent_id` ends
up with the new id after the call, and its `stream` binding survives. -/
theorem C10_witness :
    dictGet (chat_universal "http://localhost:8082" "agent-7"
        [("agent_id", Json.str "old"), ("stream", Json.bool true)]).callerData
      "agent_id" = some (Json.str "agent-7") ∧
    dictGet (chat_universal "http://localhost:8082" "agent-7"
        [("agent_id", Json.str "old"), ("stream", Json.bool true)]).callerData
      "stream" =
      dictGet [("agent_id", Json.str "old"), ("stream", Json.bool true)]
        "stream" :=
  ⟨(C10_universal_mutates_caller_mapping "http://localhost:8082" "agent-7"
      [("agent_id", Json.str "old"), ("stream", Json.bool true)]
      { query := "q", user := "u" }).2.1,
   (C10_universal_mutates_caller_mapping "http://localhost:8082" "agent-7"
      [("agent_id", Json.str "old"), ("stream", Json.bool true)]
      { query := "q", user := "u" }).2.2.1 "stream" (by decide)⟩

end DataFlow
